import Mathlib

/-!
Verification of the ptytest session/broadcast core.

This file gives a shallow embedding of the parts of ptytest that the
checked properties talk about:

* BaseSession.verify_text_appears and BaseSession.wait_for_text
  (src/ptytest/session.py, polling assertions),
* PtySession.send_keys / send_raw / cleanup and
  TmuxSession.send_keys / send_raw / cleanup (src/ptytest/session.py),
* ScreenBroadcaster (src/ptytest/viz/viewer.py): its lifecycle flags,
  subscriber list, the notification pass, the lock discipline of the
  notification pass, and the background polling loop.

Modelling conventions:

* Python exceptions are modelled with Except String; a call into an
  external collaborator (ptydriver, pexpect, tmux, a subscriber callback)
  whose behaviour is not part of this repository is modelled by an
  environment parameter recording the outcome of that call.
* Wall-clock time inside verify_text_appears is idealised: get_content is
  instantaneous and time.sleep(0.1) advances time by exactly 1/10 s, so
  the k-th call of get_content happens at elapsed time k/10 seconds and
  the loop guard (elapsed < timeout) at that call reads k/10 < T.
  Contents observed by successive get_content calls are a function
  Nat → String indexed by the call number.
* Side effects on the child process or the terminal are recorded as
  explicit lists of actions so that "writes nothing" is a provable
  statement.
-/

/-- Boolean substring test. The Python membership test on strings
(the expression text in content) is substring containment, embedded here
on the underlying character lists. -/
def strContains (hay need : String) : Bool := decide (need.data <:+: hay.data)

/-- Outcome of one call into external code (a subscriber callback or an
external resource release): either it returns, or it raises an exception
carrying a message. -/
inductive PyOutcome where
  | done
  | raised (msg : String)
deriving DecidableEq

/-! ### BaseSession.verify_text_appears (session.py lines 91-117)

The source loops: while time.time() - start < timeout: read get_content,
return True when text is contained, else sleep 0.1 s; after the loop
return False. The loop is embedded with explicit fuel; pollFuel T is
enough fuel that running out of fuel coincides with the guard being
false. The second component of verifyAux records the indices of the
get_content calls actually performed. -/

def verifyAux (content : Nat → String) (text : String) (T : ℚ) :
    Nat → Nat → Bool × List Nat
  | 0, _ => (false, [])
  | fuel+1, k =>
    if (k : ℚ) / 10 < T then
      if strContains (content k) text then (true, [k])
      else
        ((verifyAux content text T fuel (k+1)).1,
          k :: (verifyAux content text T fuel (k+1)).2)
    else (false, [])

/-- Fuel bound for the polling loop: the guard k/10 < T is false for
every k ≥ ⌈10 T⌉₊, so this much fuel never runs out before the guard
stops the loop. -/
def pollFuel (T : ℚ) : Nat := ⌈10 * T⌉₊

/-- Embedding of BaseSession.verify_text_appears with an explicit
timeout T (in seconds): the Boolean result of the polling loop. -/
def BaseSession.verify_text_appears (content : Nat → String) (text : String)
    (T : ℚ) : Bool :=
  (verifyAux content text T (pollFuel T) 0).1

/-- Indices of the get_content calls performed by verify_text_appears:
call k happens at idealised elapsed time k/10 seconds. -/
def BaseSession.verifyCalls (content : Nat → String) (text : String)
    (T : ℚ) : List Nat :=
  (verifyAux content text T (pollFuel T) 0).2

/-- Embedding of BaseSession.wait_for_text (session.py lines 119-141):
if verify_text_appears fails, one more get_content call is made (the
next call index) and a TimeoutError is raised whose message interpolates
the sought text and that content. -/
def BaseSession.wait_for_text (content : Nat → String) (text : String)
    (T : ℚ) : Except String Unit :=
  if BaseSession.verify_text_appears content text T then Except.ok ()
  else
    Except.error (("Text \x27") ++ text ++ ("\x27 did not appear within ") ++
      toString T ++ ("s.\nCurrent content:\n") ++
      content (BaseSession.verifyCalls content text T).length)

/-! ### PtySession.cleanup (session.py lines 621-641) and
TmuxSession.cleanup (session.py lines 409-438)

Both check the _is_cleaned_up flag first and return immediately when it
is set, and set it before doing any work. PtySession then shuts down the
viz server inside try/except (outcome discarded) and calls
_pty_process.cleanup() with NO try/except around it, so an exception
from that external call propagates. TmuxSession wraps the kill-session
subprocess call and the terminate/close pair each in try/except, so no
exception propagates; inside one try block a raising terminate skips the
close call. The environments below record the outcomes of the external
calls; the result is (new flag, raised exception if any, external calls
performed). -/

inductive CleanupStep where
  | vizShutdown
  | ptyProcessCleanup
  | tmuxKillSession
  | processTerminate
  | processClose
deriving DecidableEq

structure PtyCleanupEnv where
  vizServer : Bool
  vizShutdownOutcome : PyOutcome
  ptyProcessCleanupOutcome : PyOutcome
deriving DecidableEq

def PtySession.cleanup (env : PtyCleanupEnv) (isCleanedUp : Bool) :
    Bool × Except String Unit × List CleanupStep :=
  if isCleanedUp then (isCleanedUp, Except.ok (), [])
  else
    let steps := (if env.vizServer then [CleanupStep.vizShutdown] else []) ++
      [CleanupStep.ptyProcessCleanup]
    match env.ptyProcessCleanupOutcome with
    | PyOutcome.done => (true, Except.ok (), steps)
    | PyOutcome.raised e => (true, Except.error e, steps)

structure TmuxCleanupEnv where
  killSessionOutcome : PyOutcome
  hasProcess : Bool
  processAlive : Bool
  terminateOutcome : PyOutcome
  closeOutcome : PyOutcome
deriving DecidableEq

def TmuxSession.cleanup (env : TmuxCleanupEnv) (isCleanedUp : Bool) :
    Bool × Except String Unit × List CleanupStep :=
  if isCleanedUp then (isCleanedUp, Except.ok (), [])
  else
    let procSteps :=
      if env.hasProcess then
        if env.processAlive then
          match env.terminateOutcome with
          | PyOutcome.raised _ => [CleanupStep.processTerminate]
          | PyOutcome.done => [CleanupStep.processTerminate, CleanupStep.processClose]
        else [CleanupStep.processClose]
      else []
    (true, Except.ok (), [CleanupStep.tmuxKillSession] ++ procSteps)

/-! ### send_keys and send_raw (session.py lines 256-280 and 572-598)

PtySession.send_keys and PtySession.send_raw first test the liveness of
the child and raise RuntimeError("Process not running") before writing
anything; on a live process they delegate to the external ptydriver
handle (recorded as a WriteCall). TmuxSession.send_keys and
TmuxSession.send_raw perform NO liveness test: they call
self.process.send unconditionally (keys, then a carriage return unless
literal). The alive parameter of the tmux functions is the liveness the
claim quantifies over; the body ignores it exactly as the source does. -/

inductive WriteCall where
  | send (keys : String) (pressEnter : Bool)
  | sendRaw (sequence : String)
deriving DecidableEq

def PtySession.send_keys (alive : Bool) (keys : String) (literal : Bool) :
    Except String Unit × List WriteCall :=
  if alive then (Except.ok (), [WriteCall.send keys (!literal)])
  else (Except.error ("Process not running"), [])

def PtySession.send_raw (alive : Bool) (sequence : String) :
    Except String Unit × List WriteCall :=
  if alive then (Except.ok (), [WriteCall.sendRaw sequence])
  else (Except.error ("Process not running"), [])

def TmuxSession.send_keys (_alive : Bool) (keys : String) (literal : Bool) :
    Except String Unit × List WriteCall :=
  (Except.ok (), [WriteCall.sendRaw keys] ++
    if literal then [] else [WriteCall.sendRaw ("\r")])

def TmuxSession.send_raw (_alive : Bool) (sequence : String) :
    Except String Unit × List WriteCall :=
  (Except.ok (), [WriteCall.sendRaw sequence])

/-! ### ScreenBroadcaster (viz/viewer.py)

State: _running flag, the background threads started so far (the source
stores only the latest Thread object; the count makes "a new polling
thread is started" observable), the subscriber list (callbacks are
identified by Nat ids, matching Python object identity used by
list.remove), and _last_content, the list of lines of the last broadcast
(the cursor is NOT stored). A callback environment maps an id and the
snapshot it receives to the outcome of the call. -/

structure Snapshot where
  lines : List String
  cursor_x : Nat
  cursor_y : Nat
deriving DecidableEq

abbrev CallbackEnv := Nat → Snapshot → PyOutcome

structure ScreenBroadcaster where
  running : Bool
  threadStarts : Nat
  subscribers : List Nat
  lastContent : List String
deriving DecidableEq

/-- State of a freshly constructed ScreenBroadcaster (viewer.py lines
66-72): not running, no thread, no subscribers, empty last content. -/
def initBroadcaster : ScreenBroadcaster :=
  { running := false, threadStarts := 0, subscribers := [], lastContent := [] }

/-- Embedding of ScreenBroadcaster.start (viewer.py lines 108-117): a
no-op when already running, otherwise sets _running and starts a new
background thread. -/
def ScreenBroadcaster.start (b : ScreenBroadcaster) : ScreenBroadcaster :=
  if b.running then b
  else { b with running := true, threadStarts := b.threadStarts + 1 }

/-- Embedding of ScreenBroadcaster.shutdown (viewer.py lines 143-151):
clears _running, joins the thread (no state effect), clears subscribers. -/
def ScreenBroadcaster.shutdown (b : ScreenBroadcaster) : ScreenBroadcaster :=
  { b with running := false, subscribers := [] }

/-- Embedding of ScreenBroadcaster.subscribe (viewer.py lines 74-82):
appends the callback under the subscriber lock. -/
def ScreenBroadcaster.subscribe (b : ScreenBroadcaster) (id : Nat) :
    ScreenBroadcaster :=
  { b with subscribers := b.subscribers ++ [id] }

/-- Embedding of ScreenBroadcaster.unsubscribe (viewer.py lines 84-93):
removes the first occurrence of the callback when present. -/
def ScreenBroadcaster.unsubscribe (b : ScreenBroadcaster) (id : Nat) :
    ScreenBroadcaster :=
  { b with subscribers := b.subscribers.erase id }

/-- Embedding of the is_running property (viewer.py lines 153-156): it
reads the _running flag and nothing else. -/
def ScreenBroadcaster.isRunning (b : ScreenBroadcaster) : Bool := b.running

/-- Embedding of the inner try/except around one callback invocation
(viewer.py lines 132-136): the exception, if any, is caught and
discarded, so executing the protected call never propagates an error. -/
def pyTrySwallow (r : PyOutcome) : Except String Unit :=
  match r with
  | PyOutcome.done => Except.ok ()
  | PyOutcome.raised _ => Except.ok ()

/-- Embedding of the notification for-loop (viewer.py lines 131-136):
each subscriber callback is invoked in order with the snapshot, its body
protected by pyTrySwallow; an uncaught exception anywhere in the loop
would propagate as Except.error. The returned list records, per
subscriber, the snapshot it was invoked with and the outcome of its
callback. -/
def notifySubscribers (env : CallbackEnv) (s : Snapshot) :
    List Nat → Except String (List (Nat × Snapshot × PyOutcome))
  | [] => Except.ok []
  | id :: rest =>
    match pyTrySwallow (env id s) with
    | Except.error e => Except.error e
    | Except.ok _ =>
      match notifySubscribers env s rest with
      | Except.error e => Except.error e
      | Except.ok tail => Except.ok ((id, s, env id s) :: tail)

/-- Result of one iteration of the broadcast loop: the notifications
issued (if any) and whether the outer except clause broke the loop. -/
structure PassResult where
  notified : List (Nat × Snapshot × PyOutcome)
  broke : Bool
deriving DecidableEq

/-- Embedding of one iteration of ScreenBroadcaster._broadcast_loop
(viewer.py lines 121-141): read the screen state (a raising read is
caught by the outer except clause, which breaks the loop); when the
fresh lines differ from _last_content, update _last_content and notify
every subscriber; cursor coordinates are not compared. -/
def broadcastPass (env : CallbackEnv) (reading : Except String Snapshot)
    (b : ScreenBroadcaster) : ScreenBroadcaster × PassResult :=
  match reading with
  | Except.error _ => (b, { notified := [], broke := true })
  | Except.ok s =>
    if s.lines ≠ b.lastContent then
      let b2 := { b with lastContent := s.lines }
      match notifySubscribers env s b.subscribers with
      | Except.ok l => (b2, { notified := l, broke := false })
      | Except.error _ => (b2, { notified := [], broke := true })
    else (b, { notified := [], broke := false })

/-- Embedding of ScreenBroadcaster._broadcast_loop with explicit fuel:
pass k reads the screen state indexed k, runs while _running is set, and
stops for good when a pass breaks. Returns the final broadcaster state
and the list of passes performed. -/
def broadcastLoop (env : CallbackEnv) (screen : Nat → Except String Snapshot) :
    Nat → Nat → ScreenBroadcaster → ScreenBroadcaster × List PassResult
  | 0, _, b => (b, [])
  | fuel+1, k, b =>
    if b.running then
      let p := broadcastPass env (screen k) b
      if p.2.broke then (p.1, [p.2])
      else
        ((broadcastLoop env screen fuel (k+1) p.1).1,
          p.2 :: (broadcastLoop env screen fuel (k+1) p.1).2)
    else (b, [])

/-! ### Lock discipline of the notification pass (viewer.py lines 130-136)

The with-statement acquires the subscriber lock, the for-loop invokes
every callback inside the with-block, and the lock is released when the
block exits. The event trace of the notification section makes the lock
state at each callback invocation provable. -/

inductive LockEvent where
  | acquire
  | release
  | invoke (id : Nat)
deriving DecidableEq

/-- Event trace of the notification section as written in the source:
acquire the subscriber lock, invoke every subscriber, release. There is
no copy of the subscriber list and no early release. -/
def notifyEvents (subs : List Nat) : List LockEvent :=
  LockEvent.acquire :: (subs.map LockEvent.invoke ++ [LockEvent.release])

def lockDelta : LockEvent → Int
  | LockEvent.acquire => 1
  | LockEvent.release => -1
  | LockEvent.invoke _ => 0

/-- Number of unreleased acquisitions of the subscriber lock after a
trace prefix; positive means the lock is held. -/
def lockDepth (t : List LockEvent) : Int := (t.map lockDelta).sum

/-! ### Broadcaster operation sequences (for the lifecycle claim) -/

inductive BroadcasterOp where
  | start
  | shutdown
  | subscribe (id : Nat)
  | unsubscribe (id : Nat)
deriving DecidableEq

def applyBroadcasterOp (b : ScreenBroadcaster) : BroadcasterOp → ScreenBroadcaster
  | BroadcasterOp.start => b.start
  | BroadcasterOp.shutdown => b.shutdown
  | BroadcasterOp.subscribe id => b.subscribe id
  | BroadcasterOp.unsubscribe id => b.unsubscribe id

def applyBroadcasterOps (b : ScreenBroadcaster) (ops : List BroadcasterOp) :
    ScreenBroadcaster :=
  ops.foldl applyBroadcasterOp b

/-! ## Helper lemmas -/

theorem strContains_iff (hay need : String) :
    strContains hay need = true ↔ need.data <:+: hay.data := by
  simp [strContains]

theorem pollFuel_enough (T : ℚ) :
    T ≤ (((0 : Nat) : ℚ) + (pollFuel T : ℚ)) / 10 := by
  have h := Nat.le_ceil (10 * T)
  simp only [pollFuel] at *
  push_cast
  linarith

theorem pollFuel_of_nonpos (T : ℚ) (hT : T ≤ 0) : pollFuel T = 0 := by
  rw [pollFuel]
  exact Nat.ceil_eq_zero.mpr (by linarith)

theorem verifyAux_true_iff (content : Nat → String) (text : String) (T : ℚ) :
    ∀ (fuel k : Nat), T ≤ ((k : ℚ) + (fuel : ℚ)) / 10 →
      ((verifyAux content text T fuel k).1 = true ↔
        ∃ j, k ≤ j ∧ (j : ℚ) / 10 < T ∧ strContains (content j) text = true) := by
  intro fuel
  induction fuel with
  | zero =>
    intro k hk
    constructor
    · intro h
      simp [verifyAux] at h
    · rintro ⟨j, hkj, hjT, _⟩
      exfalso
      have hj : (k : ℚ) ≤ (j : ℚ) := by exact_mod_cast hkj
      push_cast at hk
      linarith
  | succ fuel ih =>
    intro k hk
    by_cases hcond : (k : ℚ) / 10 < T
    · by_cases hfound : strContains (content k) text = true
      · simp only [verifyAux]
        rw [if_pos hcond, if_pos hfound]
        constructor
        · intro _
          exact ⟨k, le_refl k, hcond, hfound⟩
        · intro _
          rfl
      · simp only [verifyAux]
        rw [if_pos hcond, if_neg hfound]
        have hk2 : T ≤ (((k+1 : Nat) : ℚ) + (fuel : ℚ)) / 10 := by
          push_cast at hk ⊢
          linarith
        rw [ih (k+1) hk2]
        constructor
        · rintro ⟨j, hkj, hjT, hfd⟩
          exact ⟨j, by omega, hjT, hfd⟩
        · rintro ⟨j, hkj, hjT, hfd⟩
          refine ⟨j, ?_, hjT, hfd⟩
          rcases Nat.eq_or_lt_of_le hkj with he | hl
          · exfalso
            rw [← he] at hfd
            exact hfound hfd
          · omega
    · constructor
      · intro h
        simp only [verifyAux] at h
        rw [if_neg hcond] at h
        simp at h
      · rintro ⟨j, hkj, hjT, _⟩
        exfalso
        have hj : (k : ℚ) ≤ (j : ℚ) := by exact_mod_cast hkj
        have hTk : T ≤ (k : ℚ) / 10 := not_lt.mp hcond
        linarith

theorem verifyAux_calls (content : Nat → String) (text : String) (T : ℚ) :
    ∀ (fuel k : Nat), ∃ m, (verifyAux content text T fuel k).2 = List.range' k m := by
  intro fuel
  induction fuel with
  | zero =>
    intro k
    exact ⟨0, rfl⟩
  | succ fuel ih =>
    intro k
    by_cases hcond : (k : ℚ) / 10 < T
    · by_cases hfound : strContains (content k) text = true
      · refine ⟨1, ?_⟩
        simp only [verifyAux]
        rw [if_pos hcond, if_pos hfound]
        rfl
      · obtain ⟨m, hm⟩ := ih (k+1)
        refine ⟨m+1, ?_⟩
        simp only [verifyAux]
        rw [if_pos hcond, if_neg hfound]
        show k :: (verifyAux content text T fuel (k+1)).2 = List.range' k (m+1)
        rw [hm]
        exact (List.range'_succ k m 1).symm
    · refine ⟨0, ?_⟩
      simp only [verifyAux]
      rw [if_neg hcond]
      rfl

/-! ## C1 -/

/-- C1: for every content trace, text and timeout T with 0 < T,
verify_text_appears is a total Boolean function (so it never raises) and
returns true exactly when the sought text is a substring of the content
returned by one of its get_content calls made strictly before the
timeout (call k happens at elapsed time k/10 s, so exactly the calls
with k/10 < T occur); moreover the calls performed are the consecutive
indices 0, 1, 2, ..., i.e. successive polls are exactly one sleep of
1/10 s = 100 ms apart, an interval of at most 100 ms. -/
theorem verify_text_appears_spec (content : Nat → String) (text : String)
    (T : ℚ) (hT : 0 < T) :
    (BaseSession.verify_text_appears content text T = true ↔
      ∃ k : ℕ, (k : ℚ) / 10 < T ∧ strContains (content k) text = true) ∧
    BaseSession.verifyCalls content text T =
      List.range (BaseSession.verifyCalls content text T).length := by
  constructor
  · have h0 := verifyAux_true_iff content text T (pollFuel T) 0 (pollFuel_enough T)
    refine Iff.trans h0 ?_
    constructor
    · rintro ⟨j, _, hjT, hfd⟩
      exact ⟨j, hjT, hfd⟩
    · rintro ⟨j, hjT, hfd⟩
      exact ⟨j, Nat.zero_le j, hjT, hfd⟩
  · obtain ⟨m, hm⟩ := verifyAux_calls content text T (pollFuel T) 0
    unfold BaseSession.verifyCalls
    rw [hm, List.length_range']
    exact (List.range_eq_range' m).symm

/-- Witness for C1 at a concrete input: T = 3/10 with constant content
containing the text. -/
theorem verify_text_appears_spec_witness :
    (0 : ℚ) < 3/10 ∧
    ((BaseSession.verify_text_appears (fun _ => "hello") ("ell") (3/10) = true ↔
      ∃ k : ℕ, (k : ℚ) / 10 < 3/10 ∧ strContains ("hello") ("ell") = true) ∧
     BaseSession.verifyCalls (fun _ => "hello") ("ell") (3/10) =
       List.range (BaseSession.verifyCalls (fun _ => "hello") ("ell") (3/10)).length) :=
  ⟨by norm_num, verify_text_appears_spec (fun _ => "hello") ("ell") (3/10) (by norm_num)⟩

/-! ## C9 -/

/-- C9: with a timeout that is zero or negative, the loop guard is false
at entry, so verify_text_appears returns false and performs no
get_content call at all, even when the text is already on screen. -/
theorem verify_text_appears_nonpos_timeout (content : Nat → String)
    (text : String) (T : ℚ) (hT : T ≤ 0) :
    BaseSession.verify_text_appears content text T = false ∧
    BaseSession.verifyCalls content text T = [] := by
  have h : pollFuel T = 0 := pollFuel_of_nonpos T hT
  constructor
  · unfold BaseSession.verify_text_appears
    rw [h]
    rfl
  · unfold BaseSession.verifyCalls
    rw [h]
    rfl

/-- Witness for C9 at a concrete input: timeout 0 while the text is
already contained in the current content. -/
theorem verify_text_appears_nonpos_timeout_witness :
    (0 : ℚ) ≤ 0 ∧ strContains ("hi there") ("hi") = true ∧
    (BaseSession.verify_text_appears (fun _ => "hi there") ("hi") 0 = false ∧
     BaseSession.verifyCalls (fun _ => "hi there") ("hi") 0 = []) :=
  ⟨le_refl 0, by decide,
    verify_text_appears_nonpos_timeout (fun _ => "hi there") ("hi") 0 (le_refl 0)⟩

/-! ## C2 -/

/-- C2: when the text appears in time, wait_for_text returns normally;
when verify_text_appears times out, wait_for_text raises a timeout error
whose message contains both the literal sought text and the literal
content observed by the final get_content call made at the time of
failure, as substrings. -/
theorem wait_for_text_spec (content : Nat → String) (text : String) (T : ℚ) :
    (BaseSession.verify_text_appears content text T = true →
      BaseSession.wait_for_text content text T = Except.ok ()) ∧
    (BaseSession.verify_text_appears content text T = false →
      ∃ msg, BaseSession.wait_for_text content text T = Except.error msg ∧
        text.data <:+: msg.data ∧
        (content (BaseSession.verifyCalls content text T).length).data <:+:
          msg.data) := by
  constructor
  · intro h
    unfold BaseSession.wait_for_text
    rw [if_pos h]
  · intro h
    unfold BaseSession.wait_for_text
    rw [if_neg (by simp [h])]
    refine ⟨_, rfl, ?_, ?_⟩
    · refine ⟨("Text \x27").data,
        (("\x27 did not appear within ") ++ toString T ++
          ("s.\nCurrent content:\n") ++
          content (BaseSession.verifyCalls content text T).length).data, ?_⟩
      simp [List.append_assoc]
    · refine ⟨(("Text \x27") ++ text ++ ("\x27 did not appear within ") ++
        toString T ++ ("s.\nCurrent content:\n")).data, [], ?_⟩
      simp

/-- Witness for C2 at a concrete input: the text is absent, so the error
message carries both the sought text and the observed content. -/
theorem wait_for_text_spec_witness :
    BaseSession.verify_text_appears (fun _ => "actual") ("absent") (1/10) = false ∧
    (∃ msg, BaseSession.wait_for_text (fun _ => "actual") ("absent") (1/10) =
        Except.error msg ∧
      ("absent" : String).data <:+: msg.data ∧
      ((fun _ : Nat => "actual")
        (BaseSession.verifyCalls (fun _ => "actual") ("absent") (1/10)).length).data <:+:
        msg.data) := by
  have h : BaseSession.verify_text_appears (fun _ => "actual") ("absent") (1/10) = false := by
    norm_num [BaseSession.verify_text_appears, pollFuel, verifyAux, strContains]
    decide
  exact ⟨h, (wait_for_text_spec (fun _ => "actual") ("absent") (1/10)).2 h⟩

/-! ## C3 -/

/-- Counterexample for C3: a PtySession whose external
_pty_process.cleanup() raises. The source calls it with no try/except
around it (session.py line 641), so the first cleanup() call propagates
the exception: cleanup as a whole does not never-raise. -/
theorem cleanup_never_raises_counterexample :
    (PtySession.cleanup
      { vizServer := false, vizShutdownOutcome := PyOutcome.done,
        ptyProcessCleanupOutcome := PyOutcome.raised ("boom") } false).2.1 =
      Except.error ("boom") := rfl

/-- C3 as amended: cleanup is idempotent for both session kinds (any
call with the cleaned-up flag set returns immediately with no external
call, no state change and no exception); the first TmuxSession.cleanup
call never raises whatever the external outcomes are; the first
PtySession.cleanup call never raises provided the external
_pty_process.cleanup() does not raise (viz-server shutdown errors are
always swallowed, but a _pty_process.cleanup() exception propagates). -/
theorem cleanup_idempotent_spec :
    (∀ env : PtyCleanupEnv, PtySession.cleanup env true =
      (true, Except.ok (), [])) ∧
    (∀ env : TmuxCleanupEnv, TmuxSession.cleanup env true =
      (true, Except.ok (), [])) ∧
    (∀ env : TmuxCleanupEnv, (TmuxSession.cleanup env false).2.1 =
      Except.ok ()) ∧
    (∀ env : PtyCleanupEnv, env.ptyProcessCleanupOutcome = PyOutcome.done →
      PtySession.cleanup env false = (true, Except.ok (),
        (if env.vizServer then [CleanupStep.vizShutdown] else []) ++
          [CleanupStep.ptyProcessCleanup])) := by
  refine ⟨?_, ?_, ?_, ?_⟩
  · intro env
    rfl
  · intro env
    rfl
  · intro env
    rfl
  · intro env h
    unfold PtySession.cleanup
    rw [if_neg (by simp), h]

/-- Witness for C3 at concrete inputs: a second cleanup call is a no-op
for both session kinds, a first TmuxSession cleanup returns normally,
and a first PtySession cleanup returns normally when the external
process cleanup succeeds. -/
theorem cleanup_idempotent_spec_witness :
    (PtySession.cleanup
      { vizServer := true, vizShutdownOutcome := PyOutcome.raised ("viz down"),
        ptyProcessCleanupOutcome := PyOutcome.raised ("boom") } true =
      (true, Except.ok (), [])) ∧
    (TmuxSession.cleanup
      { killSessionOutcome := PyOutcome.raised ("kill failed"), hasProcess := true,
        processAlive := true, terminateOutcome := PyOutcome.raised ("term failed"),
        closeOutcome := PyOutcome.done } false).2.1 = Except.ok () ∧
    PtySession.cleanup
      { vizServer := true, vizShutdownOutcome := PyOutcome.raised ("viz down"),
        ptyProcessCleanupOutcome := PyOutcome.done } false =
      (true, Except.ok (), [CleanupStep.vizShutdown, CleanupStep.ptyProcessCleanup]) :=
  ⟨cleanup_idempotent_spec.1 _,
    cleanup_idempotent_spec.2.2.1 _,
    cleanup_idempotent_spec.2.2.2 _ rfl⟩

/-! ## C4 -/

/-- Counterexample for C4: a TmuxSession whose child is dead. The source
TmuxSession.send_keys (session.py lines 267-280) performs no liveness
check: it raises no process-not-running error and it writes the keys and
the carriage return anyway, so the claim fails for TmuxSession. -/
theorem send_keys_dead_counterexample :
    (TmuxSession.send_keys false ("echo hi") false).1 = Except.ok () ∧
    (TmuxSession.send_keys false ("echo hi") false).2 =
      [WriteCall.sendRaw ("echo hi"), WriteCall.sendRaw ("\r")] :=
  ⟨rfl, rfl⟩

/-- C4 as amended: PtySession.send_keys and PtySession.send_raw fail
immediately with the process-not-running error and write nothing when
the process is dead, and write when it is alive; TmuxSession.send_keys
and TmuxSession.send_raw perform no liveness check at all: whatever the
liveness, they raise nothing and write unconditionally. -/
theorem send_keys_liveness_spec :
    (∀ (keys : String) (literal : Bool), PtySession.send_keys false keys literal =
      (Except.error ("Process not running"), [])) ∧
    (∀ sequence : String, PtySession.send_raw false sequence =
      (Except.error ("Process not running"), [])) ∧
    (∀ (keys : String) (literal : Bool),
      (PtySession.send_keys true keys literal).1 = Except.ok ()) ∧
    (∀ (alive literal : Bool) (keys : String),
      (TmuxSession.send_keys alive keys literal).1 = Except.ok () ∧
      (TmuxSession.send_keys alive keys literal).2 ≠ []) ∧
    (∀ (alive : Bool) (sequence : String), TmuxSession.send_raw alive sequence =
      (Except.ok (), [WriteCall.sendRaw sequence])) := by
  refine ⟨fun keys literal => rfl, fun sequence => rfl, fun keys literal => rfl,
    fun alive literal keys => ⟨rfl, ?_⟩, fun alive sequence => rfl⟩
  cases literal <;> simp [TmuxSession.send_keys]

/-! ## Broadcaster helper lemmas -/

theorem pyTrySwallow_ok (r : PyOutcome) : pyTrySwallow r = Except.ok () := by
  cases r <;> rfl

theorem notifySubscribers_eq (env : CallbackEnv) (s : Snapshot) :
    ∀ subs : List Nat, notifySubscribers env s subs =
      Except.ok (subs.map (fun id => (id, s, env id s))) := by
  intro subs
  induction subs with
  | nil => rfl
  | cons id rest ih =>
    simp only [notifySubscribers, pyTrySwallow_ok, ih, List.map_cons]

theorem broadcastPass_error (env : CallbackEnv) (e : String)
    (b : ScreenBroadcaster) :
    broadcastPass env (Except.error e) b =
      (b, { notified := [], broke := true }) := rfl

theorem broadcastPass_ok_not_broke (env : CallbackEnv) (s : Snapshot)
    (b : ScreenBroadcaster) :
    (broadcastPass env (Except.ok s) b).2.broke = false := by
  simp only [broadcastPass]
  by_cases h : s.lines ≠ b.lastContent
  · rw [if_pos h, notifySubscribers_eq]
  · rw [if_neg h]

theorem broadcastPass_running (env : CallbackEnv) (r : Except String Snapshot)
    (b : ScreenBroadcaster) :
    (broadcastPass env r b).1.running = b.running := by
  cases r with
  | error e => rfl
  | ok s =>
    simp only [broadcastPass]
    by_cases h : s.lines ≠ b.lastContent
    · rw [if_pos h, notifySubscribers_eq]
    · rw [if_neg h]

/-! ## C5 -/

/-- Callback environment in which every callback returns normally. -/
def constEnv : CallbackEnv := fun _ _ => PyOutcome.done

/-- Screen trace whose line list never changes after the first pass while
the cursor moves: pass 0 reads cursor (0,0), every later pass reads
cursor (3,3) with the same single line. -/
def screenCursorOnly : Nat → Except String Snapshot :=
  fun k =>
    if k = 0 then Except.ok { lines := ["a"], cursor_x := 0, cursor_y := 0 }
    else Except.ok { lines := ["a"], cursor_x := 3, cursor_y := 3 }

/-- Counterexample for C5: in pass 1 the freshly read snapshot
(lines ["a"], cursor (3,3)) differs under value equality from the
last-broadcast snapshot of pass 0 (lines ["a"], cursor (0,0)), yet the
subscriber receives no notification, because the source compares only
the line list (lines != self._last_content) and ignores the cursor. -/
theorem broadcast_cursor_change_counterexample :
    (broadcastLoop constEnv screenCursorOnly 2 0
        ((initBroadcaster.subscribe 0).start)).2 =
      [{ notified := [(0, { lines := ["a"], cursor_x := 0, cursor_y := 0 },
          PyOutcome.done)], broke := false },
       { notified := [], broke := false }] ∧
    ({ lines := ["a"], cursor_x := 3, cursor_y := 3 } : Snapshot) ≠
      { lines := ["a"], cursor_x := 0, cursor_y := 0 } := by
  exact ⟨rfl, by decide⟩

/-- C5 as amended: in each iteration reading snapshot s, subscribers are
notified if and only if the freshly read LINE LIST differs under value
equality from the stored last-broadcast line list; the cursor pair plays
no part in the comparison; on a notification the stored line list (and
only it) is updated to the new one, and on equality nothing happens. -/
theorem broadcast_line_diff_spec (env : CallbackEnv) (s : Snapshot)
    (b : ScreenBroadcaster) :
    (s.lines ≠ b.lastContent →
      broadcastPass env (Except.ok s) b =
        ({ b with lastContent := s.lines },
          { notified := b.subscribers.map (fun id => (id, s, env id s)),
            broke := false })) ∧
    (s.lines = b.lastContent →
      broadcastPass env (Except.ok s) b =
        (b, { notified := [], broke := false })) := by
  constructor
  · intro h
    simp only [broadcastPass]
    rw [if_pos h, notifySubscribers_eq]
  · intro h
    simp only [broadcastPass]
    rw [if_neg (by simp [h])]

/-- Witness for C5 as amended, at a concrete changed line list with one
subscriber. -/
theorem broadcast_line_diff_spec_witness :
    (["b"] : List String) ≠ (initBroadcaster.subscribe 5).lastContent ∧
    broadcastPass constEnv
        (Except.ok { lines := ["b"], cursor_x := 1, cursor_y := 2 })
        (initBroadcaster.subscribe 5) =
      ({ initBroadcaster.subscribe 5 with lastContent := ["b"] },
        { notified := [(5, { lines := ["b"], cursor_x := 1, cursor_y := 2 },
            PyOutcome.done)], broke := false }) :=
  ⟨by decide, (broadcast_line_diff_spec constEnv
    { lines := ["b"], cursor_x := 1, cursor_y := 2 }
    (initBroadcaster.subscribe 5)).1 (by decide)⟩

/-! ## C6 -/

/-- C6: for every callback environment (including callbacks that raise
on every invocation), every snapshot and every ordered subscriber list,
the notification for-loop returns normally (no exception escapes the
per-callback try/except) and its record shows each subscriber invoked,
in order, with the very same snapshot; moreover an iteration that reads
the screen successfully never breaks the loop, so polling continues to
subsequent passes. -/
theorem broadcast_subscriber_isolation_spec (env : CallbackEnv) (s : Snapshot)
    (subs : List Nat) (b : ScreenBroadcaster) :
    notifySubscribers env s subs =
      Except.ok (subs.map (fun id => (id, s, env id s))) ∧
    (broadcastPass env (Except.ok s) b).2.broke = false :=
  ⟨notifySubscribers_eq env s subs, broadcastPass_ok_not_broke env s b⟩

/-! ## C7 -/

theorem lockDepth_cons (e : LockEvent) (t : List LockEvent) :
    lockDepth (e :: t) = lockDelta e + lockDepth t := by
  simp [lockDepth]

theorem lockDepth_take_invokes (l : List Nat) :
    ∀ j : Nat, j ≤ l.length →
      lockDepth ((l.map LockEvent.invoke ++ [LockEvent.release]).take j) = 0 := by
  induction l with
  | nil =>
    intro j hj
    have h0 : j = 0 := Nat.le_zero.mp hj
    subst h0
    rfl
  | cons a t ih =>
    intro j hj
    cases j with
    | zero => rfl
    | succ m =>
      rw [List.map_cons, List.cons_append, List.take_succ_cons, lockDepth_cons,
        ih m (by simpa using hj)]
      rfl

/-- Counterexample for C7: with a single subscriber, the callback
invocation is the event at index 1 of the notification trace, and the
subscriber lock depth over the prefix before it is 1, not 0: the lock is
held while the callback runs. The source holds the with-block of
_subscribers_lock around the whole for-loop and takes no copy of the
subscriber list. -/
theorem notify_lock_counterexample :
    (notifyEvents [0])[1]? = some (LockEvent.invoke 0) ∧
    lockDepth ((notifyEvents [0]).take 1) = 1 := by
  decide

/-- C7 as amended: every callback invocation of a notification pass
happens while the subscriber lock is held: the j-th subscriber is
invoked at trace position j+1, and the lock depth over the trace prefix
before that invocation is exactly 1 (the lock acquired at the start of
the pass and not yet released). -/
theorem notify_lock_spec (subs : List Nat) (j : Nat) (h : j < subs.length) :
    (notifyEvents subs)[j+1]? = some (LockEvent.invoke (subs.get ⟨j, h⟩)) ∧
    lockDepth ((notifyEvents subs).take (j+1)) = 1 := by
  constructor
  · rw [notifyEvents, List.getElem?_cons_succ,
      List.getElem?_append_left (by simpa using h), List.getElem?_map,
      List.getElem?_eq_getElem h]
    rfl
  · rw [notifyEvents, List.take_succ_cons, lockDepth_cons,
      lockDepth_take_invokes subs j (Nat.le_of_lt h)]
    rfl

/-- Witness for C7 as amended at a concrete two-subscriber pass. -/
theorem notify_lock_spec_witness :
    (notifyEvents [3, 4])[1]? = some (LockEvent.invoke 3) ∧
    lockDepth ((notifyEvents [3, 4]).take 1) = 1 :=
  notify_lock_spec [3, 4] 0 (by decide)

/-! ## C8 -/

/-- Counterexample for C8: after start(); shutdown() the broadcaster is
in the shut-down state (is_running false), yet one more start() call
returns it to the running state and starts one more polling thread,
because start() only tests the _running flag, which shutdown() cleared. -/
theorem broadcaster_restart_counterexample :
    (initBroadcaster.start.shutdown).isRunning = false ∧
    (initBroadcaster.start.shutdown.start).isRunning = true ∧
    (initBroadcaster.start.shutdown.start).threadStarts =
      (initBroadcaster.start.shutdown).threadStarts + 1 := by
  decide

/-- C8 as amended: from any non-running state, start() does return the
broadcaster to the running state and does start a new polling thread;
the lifecycle is unidirectional only for call sequences that avoid
start(): shutdown, subscribe and unsubscribe never set the running flag
and never start a thread. -/
theorem broadcaster_lifecycle_spec :
    (∀ b : ScreenBroadcaster, b.running = false →
      (b.start).running = true ∧ (b.start).threadStarts = b.threadStarts + 1) ∧
    (∀ (b : ScreenBroadcaster) (ops : List BroadcasterOp), b.running = false →
      (∀ op ∈ ops, op ≠ BroadcasterOp.start) →
      (applyBroadcasterOps b ops).running = false ∧
      (applyBroadcasterOps b ops).threadStarts = b.threadStarts) := by
  constructor
  · intro b h
    constructor
    · simp [ScreenBroadcaster.start, h]
    · simp [ScreenBroadcaster.start, h]
  · intro b ops
    induction ops generalizing b with
    | nil =>
      intro h _
      exact ⟨h, rfl⟩
    | cons op rest ih =>
      intro h hops
      have hop : op ≠ BroadcasterOp.start := hops op (by simp)
      have hrest : ∀ o ∈ rest, o ≠ BroadcasterOp.start :=
        fun o ho => hops o (by simp [ho])
      have hstep : (applyBroadcasterOp b op).running = false ∧
          (applyBroadcasterOp b op).threadStarts = b.threadStarts := by
        cases op with
        | start => exact absurd rfl hop
        | shutdown => exact ⟨rfl, rfl⟩
        | subscribe id => exact ⟨h, rfl⟩
        | unsubscribe id => exact ⟨h, rfl⟩
      have hrec := ih (applyBroadcasterOp b op) hstep.1 hrest
      refine ⟨hrec.1, ?_⟩
      rw [show applyBroadcasterOps b (op :: rest) =
        applyBroadcasterOps (applyBroadcasterOp b op) rest from rfl,
        hrec.2, hstep.2]

/-- Witness for C8 as amended: a restart from the shut-down state, and a
start-free call sequence that stays shut down. -/
theorem broadcaster_lifecycle_spec_witness :
    ((initBroadcaster.start.shutdown.start).running = true ∧
      (initBroadcaster.start.shutdown.start).threadStarts =
        (initBroadcaster.start.shutdown).threadStarts + 1) ∧
    ((applyBroadcasterOps (initBroadcaster.start.shutdown)
        [BroadcasterOp.shutdown, BroadcasterOp.subscribe 1,
          BroadcasterOp.unsubscribe 1]).running = false ∧
      (applyBroadcasterOps (initBroadcaster.start.shutdown)
        [BroadcasterOp.shutdown, BroadcasterOp.subscribe 1,
          BroadcasterOp.unsubscribe 1]).threadStarts =
        (initBroadcaster.start.shutdown).threadStarts) :=
  ⟨broadcaster_lifecycle_spec.1 _ (by decide),
    broadcaster_lifecycle_spec.2 _ _ (by decide) (by decide)⟩

/-! ## C10 -/

theorem broadcastLoop_succ_running (env : CallbackEnv)
    (screen : Nat → Except String Snapshot) (fuel k : Nat)
    (b : ScreenBroadcaster) (h : b.running = true) :
    broadcastLoop env screen (fuel+1) k b =
      if (broadcastPass env (screen k) b).2.broke then
        ((broadcastPass env (screen k) b).1,
          [(broadcastPass env (screen k) b).2])
      else
        ((broadcastLoop env screen fuel (k+1)
            (broadcastPass env (screen k) b).1).1,
          (broadcastPass env (screen k) b).2 ::
            (broadcastLoop env screen fuel (k+1)
              (broadcastPass env (screen k) b).1).2) := by
  simp [broadcastLoop, h]

theorem broadcastLoop_error_exit (env : CallbackEnv)
    (screen : Nat → Except String Snapshot) (e : String) :
    ∀ (n fuel k : Nat) (b : ScreenBroadcaster), b.running = true →
      (∀ i, i < n → ∃ s, screen (k + i) = Except.ok s) →
      screen (k + n) = Except.error e →
      n + 1 ≤ fuel →
      ∃ ps, (broadcastLoop env screen fuel k b).2 =
          ps ++ [{ notified := [], broke := true }] ∧
        ps.length = n ∧
        (broadcastLoop env screen fuel k b).1.running = true := by
  intro n
  induction n with
  | zero =>
    intro fuel k b hrun hok herr hfuel
    obtain ⟨f, rfl⟩ : ∃ f, fuel = f + 1 := ⟨fuel - 1, by omega⟩
    rw [Nat.add_zero] at herr
    rw [broadcastLoop_succ_running env screen f k b hrun, herr,
      broadcastPass_error]
    refine ⟨[], ?_, rfl, ?_⟩
    · rw [if_pos rfl]
      rfl
    · rw [if_pos rfl]
      exact hrun
  | succ n ih =>
    intro fuel k b hrun hok herr hfuel
    obtain ⟨f, rfl⟩ : ∃ f, fuel = f + 1 := ⟨fuel - 1, by omega⟩
    obtain ⟨s0, hs0⟩ := hok 0 (Nat.succ_pos n)
    rw [Nat.add_zero] at hs0
    rw [broadcastLoop_succ_running env screen f k b hrun, hs0]
    rw [if_neg (by simp [broadcastPass_ok_not_broke])]
    have hrun2 : (broadcastPass env (Except.ok s0) b).1.running = true := by
      rw [broadcastPass_running]
      exact hrun
    have hok2 : ∀ i, i < n → ∃ s, screen ((k+1) + i) = Except.ok s := by
      intro i hi
      have := hok (i+1) (by omega)
      rwa [show k + (i+1) = (k+1) + i from by omega] at this
    have herr2 : screen ((k+1) + n) = Except.error e := by
      rwa [show (k+1) + n = k + (n+1) from by omega]
    obtain ⟨ps, hps, hlen, hrunfin⟩ :=
      ih f (k+1) (broadcastPass env (Except.ok s0) b).1 hrun2 hok2 herr2
        (by omega)
    refine ⟨(broadcastPass env (Except.ok s0) b).2 :: ps, ?_, ?_, hrunfin⟩
    · rw [hps]
      rfl
    · simp [hlen]

/-- C10: when the screen read of pass n raises (all earlier passes read
successfully), the polling loop exits permanently at that pass: whatever
extra fuel it is given it performs exactly n+1 passes and the last pass
is the broken one; yet the loop never touches the _running flag, so
is_running on the resulting broadcaster still answers true, and only an
explicit shutdown() makes it false. -/
theorem broadcast_loop_error_exit_spec (env : CallbackEnv)
    (screen : Nat → Except String Snapshot) (e : String) (n fuel : Nat)
    (b : ScreenBroadcaster) (hrun : b.running = true)
    (hok : ∀ i, i < n → ∃ s, screen i = Except.ok s)
    (herr : screen n = Except.error e) (hfuel : n + 1 ≤ fuel) :
    (broadcastLoop env screen fuel 0 b).2.length = n + 1 ∧
    (broadcastLoop env screen fuel 0 b).2.getLast? =
      some { notified := [], broke := true } ∧
    (broadcastLoop env screen fuel 0 b).1.isRunning = true ∧
    ((broadcastLoop env screen fuel 0 b).1.shutdown).isRunning = false := by
  obtain ⟨ps, hps, hlen, hrunfin⟩ :=
    broadcastLoop_error_exit env screen e n fuel 0 b hrun
      (by intro i hi; simpa using hok i hi) (by simpa using herr) hfuel
  refine ⟨?_, ?_, hrunfin, rfl⟩
  · rw [hps]
    simp [hlen]
  · rw [hps]
    exact List.getLast?_concat ps

/-- Screen trace of a session cleaned up after the first pass: pass 0
reads one line, every later read raises. -/
def screenDies : Nat → Except String Snapshot :=
  fun k =>
    if k = 0 then Except.ok { lines := ["x"], cursor_x := 0, cursor_y := 0 }
    else Except.error ("session closed")

/-- Witness for C10 at a concrete trace: the read of pass 1 raises, the
loop with fuel 5 performs exactly 2 passes, and is_running still answers
true afterwards. -/
theorem broadcast_loop_error_exit_spec_witness :
    (broadcastLoop constEnv screenDies 5 0 initBroadcaster.start).2.length = 2 ∧
    (broadcastLoop constEnv screenDies 5 0 initBroadcaster.start).2.getLast? =
      some { notified := [], broke := true } ∧
    (broadcastLoop constEnv screenDies 5 0 initBroadcaster.start).1.isRunning = true ∧
    ((broadcastLoop constEnv screenDies 5 0 initBroadcaster.start).1.shutdown).isRunning =
      false :=
  broadcast_loop_error_exit_spec constEnv screenDies ("session closed") 1 5
    initBroadcaster.start (by decide)
    (by
      intro i hi
      have h0 : i = 0 := by omega
      subst h0
      exact ⟨{ lines := ["x"], cursor_x := 0, cursor_y := 0 }, rfl⟩)
    rfl (by omega)
